import Mathlib

/-!
Verification of the `playwith` Nintendo Switch controller emulator.

The development shallowly embeds the Rust sources:
  * `src/protocol/mod.rs` — the report codec (`Direction`, `Type`,
    `Output::try_from`);
  * `src/lib.rs` — the pairing orchestrator (`Controller::pair`,
    `Controller::close`) and its constants;
  * `src/bluetooth/mod.rs` — `Profile::new_service_record`.

Machine integers become `Nat` (the decoders only compare byte values, so no
overflow arithmetic is needed); byte slices become `List Nat`; fallible Rust
functions return an explicit result type.  `todo!()` and a failing `assert!`
are modelled by dedicated result constructors (`unimplemented`, `panicked`),
since both abort the computation rather than return an error value.
External effects (the D-Bus adapter, the accepted remote addresses, the
random UUID draw, socket-shutdown failures) are supplied as explicit oracle
inputs, and the code under verification is deterministic in them.
-/

namespace Playwith

/-! ## Error model (src/lib.rs)

`ErrorKind` in `src/lib.rs` has variants `Bluetooth(..)`, `Io(..)`,
`Protocol`, `Other`; the payloads of the first two are opaque lower-layer
errors that none of the verified code inspects, so they are dropped here. -/

inductive ErrorKind where
  | bluetoothErr
  | ioError
  | protocol
  | other
  deriving DecidableEq, Repr

/-- `Error` from `src/lib.rs`: a kind plus a detailed message. -/
structure Error where
  kind : ErrorKind
  message : String
  deriving DecidableEq, Repr

/-! ## Report codec (src/protocol/mod.rs) -/

/-- `Direction` from `src/protocol/mod.rs`: `Input = 0xA1` (controller to
host) and `Output = 0xA2` (host to controller). -/
inductive Direction where
  | input
  | output
  deriving DecidableEq, Repr

/-- The `#[repr(u8)]` discriminant of a `Direction` (`Direction as u8`). -/
def Direction.toByte : Direction → Nat
  | .input => 0xA1
  | .output => 0xA2

/-- `Type` from `src/protocol/mod.rs` (renamed: `Type` is reserved in Lean):
`Subcommand = 0x01`, `Rumble = 0x10`, `RequestIrNfcMcu = 0x11`. -/
inductive Ty where
  | subcommand
  | rumble
  | requestIrNfcMcu
  deriving DecidableEq, Repr

/-- `impl TryFrom<u8> for Type` (src/protocol/mod.rs:35-49): `0x01`, `0x10`,
`0x11` map to the three variants, anything else is a protocol error with
message "invalid output type".  The Rust `match` on the byte is rendered as
an equivalent chain of equality tests. -/
def Ty.try_from (value : Nat) : Except Error Ty :=
  if value = 0x01 then .ok .subcommand
  else if value = 0x10 then .ok .rumble
  else if value = 0x11 then .ok .requestIrNfcMcu
  else .error ⟨.protocol, "invalid output type"⟩

/-- `Output` from `src/protocol/mod.rs:54-62` (fields as in the source;
`u8`/`u32` become `Nat`, `Vec<u8>` becomes `List Nat`). -/
structure Output where
  direction : Direction
  t : Ty
  timer : Nat
  left_rumble : Nat
  right_rumble : Nat
  subcommand : Option Nat
  data : Option (List Nat)
  deriving DecidableEq, Repr

/-- Result of running `Output::try_from`.  `unimplemented` is the `todo!()`
panic the source reaches after reading the timer byte. -/
inductive DecodeResult where
  | ok (output : Output)
  | error (e : Error)
  | unimplemented
  deriving DecidableEq, Repr

/-- `impl TryFrom<&[u8]> for Output` (src/protocol/mod.rs:64-91):
length check (`< 12` fails with "invalid output length"), direction check
(`value[0] != Direction::Output as u8`, i.e. `≠ 0xA2`, fails with
"invalid output direction"), type check via `Type::try_from(value[1])`,
then the timer byte is read and the function hits `todo!()`: the remaining
parsing (rumble, subcommand id, payload) is unimplemented in the source. -/
def Output.try_from (value : List Nat) : DecodeResult :=
  if value.length < 12 then
    .error ⟨.protocol, "invalid output length"⟩
  else if value.getD 0 0 ≠ Direction.output.toByte then
    .error ⟨.protocol, "invalid output direction"⟩
  else
    match Ty.try_from (value.getD 1 0) with
    | .error e => .error e
    | .ok _t =>
      let _timer := value.getD 2 0
      .unimplemented


/-! ## Bluetooth profile model (src/bluetooth/mod.rs)

Addresses are modelled as `Nat` (six bytes, only compared for equality);
UUIDs as `Nat` below `2 ^ 128`. -/

/-- `bluer::rfcomm::Role` (only `Server` is used by the source; `Client`
kept for field fidelity). -/
inductive Role where
  | server
  | client
  deriving DecidableEq, Repr

/-- `bluer::rfcomm::Profile`, the record literal filled in by
`new_service_record`.  `Uuid` fields become `Nat`. -/
structure Profile where
  uuid : Nat
  name : Option String
  service : Option Nat
  role : Option Role
  channel : Option Nat
  psm : Option Nat
  requireAuthentication : Option Bool
  requireAuthorization : Option Bool
  autoConnect : Option Bool
  serviceRecord : Option String
  version : Option Nat
  features : Option (List Nat)
  deriving DecidableEq, Repr

/-- `Uuid::new_v4()` on the random 128-bit draw `r`: per RFC 4122 / the
`uuid` crate, the version nibble (bits 76..80 of the big-endian value) is
forced to `4` and the variant bits (bits 62..64) to `0b10`; all other bits
come from the draw.  The bit surgery is written with division/modulus so the
three untouched regions (bits 80.., bits 64..76, bits 0..62) are kept and
the two forced fields inserted. -/
def Uuid.newV4 (r : Nat) : Nat :=
  let x := r % 2 ^ 128
  x / 2 ^ 80 * 2 ^ 80 + 4 * 2 ^ 76 + x / 2 ^ 64 % 2 ^ 12 * 2 ^ 64 +
    2 * 2 ^ 62 + x % 2 ^ 62

/-- The RFC 4122 version nibble of a 128-bit UUID value. -/
def uuidVersion (u : Nat) : Nat := u / 2 ^ 76 % 16

/-- `ServiceRecord::new_service_record` (src/bluetooth/mod.rs:246-264): a
`Profile` with a fresh `Uuid::new_v4()` as its own UUID, `role = Server`,
authentication and authorization required, the given service UUID and
service record, and every other field `None`.  The random 128-bit draw
consumed by `Uuid::new_v4()` is the explicit oracle argument `rand`. -/
def Profile.new_service_record (service : Nat) (service_record : String)
    (rand : Nat) : Profile :=
  { uuid := Uuid.newV4 rand
    name := none
    service := some service
    role := some .server
    channel := none
    psm := none
    requireAuthentication := some true
    requireAuthorization := some true
    autoConnect := none
    serviceRecord := some service_record
    version := none
    features := none }

/-! ## Pairing orchestrator model (src/lib.rs)

`Controller::pair` talks to the Bluetooth stack through `bluer`; the
adapter-side state it reads and writes is collected in `World`, and each
value produced by the environment during one run of `pair` (the read-back
class, the two accepted remote addresses, the UUID randomness) is an
explicit `PairEnv` oracle.  Capability calls are modelled as succeeding with
the oracle-provided values: the `?`-propagation of lower-layer failures is
uniform in the source and no claim turns on it.  The `assert!` in `pair`
and Rust's unwinding drop of the two just-accepted (not yet stored) sockets
are modelled by the `panicked` outcome, which removes those sockets from
the set of open ones. -/

def NINTENDO_SWITCH_NAME : String := "Nintendo Switch"

def GAMEPAD_JOYSITCK_COD : Nat := 0x002508

def CTR_PSM : Nat := 17

def ITR_PSM : Nat := 19

def SERVICE : String := "00001124-0000-1000-8000-00805f9b34fb"

/-- The 128-bit value of `SERVICE.parse()`. -/
def SERVICE_UUID : Nat := 0x112400001000800000805f9b34fb

/-- The static SDP service-record XML from src/lib.rs:114-227 (verbatim). -/
def SERVICE_RECORD : String :=
  "<?xml version=\"1.0\" encoding=\"UTF-8\" ?>
<record>
    <attribute id=\"0x0001\">
        <sequence>
            <uuid value=\"0x1124\"/>
        </sequence>
    </attribute>
    <attribute id=\"0x0004\">
        <sequence>
            <sequence>
                <uuid value=\"0x0100\"/>
                <uint16 value=\"0x0011\"/>
            </sequence>
            <sequence>
                <uuid value=\"0x0011\"/>
            </sequence>
        </sequence>
    </attribute>
    <attribute id=\"0x0005\">
        <sequence>
            <uuid value=\"0x1002\"/>
        </sequence>
    </attribute>
    <attribute id=\"0x0006\">
        <sequence>
            <uint16 value=\"0x656e\"/>
            <uint16 value=\"0x006a\"/>
            <uint16 value=\"0x0100\"/>
        </sequence>
    </attribute>
    <attribute id=\"0x0009\">
        <sequence>
            <sequence>
                <uuid value=\"0x1124\"/>
                <uint16 value=\"0x0100\"/>
            </sequence>
        </sequence>
    </attribute>
    <attribute id=\"0x000d\">
        <sequence>
            <sequence>
                <sequence>
                    <uuid value=\"0x0100\"/>
                    <uint16 value=\"0x0013\"/>
                </sequence>
                <sequence>
                    <uuid value=\"0x0011\"/>
                </sequence>
            </sequence>
        </sequence>
    </attribute>
    <attribute id=\"0x0100\">
        <text value=\"Wireless Gamepad\"/>
    </attribute>
    <attribute id=\"0x0101\">
        <text value=\"Gamepad\"/>
    </attribute>
    <attribute id=\"0x0102\">
        <text value=\"Nintendo\"/>
    </attribute>
    <attribute id=\"0x0200\">
        <uint16 value=\"0x0100\"/>
    </attribute>
    <attribute id=\"0x0201\">
        <uint16 value=\"0x0111\"/>
    </attribute>
    <attribute id=\"0x0202\">
        <uint8 value=\"0x08\"/>
    </attribute>
    <attribute id=\"0x0203\">
        <uint8 value=\"0x00\"/>
    </attribute>
    <attribute id=\"0x0204\">
        <boolean value=\"true\"/>
    </attribute>
    <attribute id=\"0x0205\">
        <boolean value=\"true\"/>
    </attribute>
    <attribute id=\"0x0206\">
        <sequence>
            <sequence>
                <uint8 value=\"0x22\"/>
                <text encoding=\"hex\" value=\"050115000904a1018530050105091901290a150025017501950a5500650081020509190b290e150025017501950481027501950281030b01000100a1000b300001000b310001000b320001000b35000100150027ffff0000751095048102c00b39000100150025073500463b0165147504950181020509190f2912150025017501950481027508953481030600ff852109017508953f8103858109027508953f8103850109037508953f9183851009047508953f9183858009057508953f9183858209067508953f9183c0\"/>
            </sequence>
        </sequence>
    </attribute>
    <attribute id=\"0x0207\">
        <sequence>
            <sequence>
                <uint16 value=\"0x0409\"/>
                <uint16 value=\"0x0100\"/>
            </sequence>
        </sequence>
    </attribute>
    <attribute id=\"0x020b\">
        <uint16 value=\"0x0100\"/>
    </attribute>
    <attribute id=\"0x020c\">
        <uint16 value=\"0x0c80\"/>
    </attribute>
    <attribute id=\"0x020d\">
        <boolean value=\"false\"/>
    </attribute>
    <attribute id=\"0x020e\">
        <boolean value=\"true\"/>
    </attribute>
    <attribute id=\"0x020f\">
        <uint16 value=\"0x0640\"/>
    </attribute>
    <attribute id=\"0x0210\">
        <uint16 value=\"0x0320\"/>
    </attribute>
</record>
"

/-- A known (paired) remote device as the adapter reports it: its address
and, when available, its name.  Modelled from the spec: `device_addresses`,
`device(..).name()` and `remove_device` are called by `pair` but absent
from `src/bluetooth/mod.rs` (spec 4.2: "enumerates already-known devices
and forcibly unpairs/removes any previously paired device whose name
matches the target console name"). -/
structure Device where
  addr : Nat
  name : Option String
  deriving DecidableEq, Repr

/-- `bluer::l2cap::SocketAddr`: an address plus a PSM (the `AddressType` is
always `BrEdr` here and is dropped). -/
structure SocketAddr where
  addr : Nat
  psm : Nat
  deriving DecidableEq, Repr

/-- An accepted L2CAP sequential-packet socket, identified by the id the
model assigned when it was accepted. -/
structure SeqPacket where
  id : Nat
  deriving DecidableEq, Repr

/-- The adapter-side and socket-side state `Controller::pair` reads and
writes. -/
structure World where
  adapterName : String
  adapterAddr : Nat
  devices : List Device
  adapterUuids : Option (List Nat)
  powered : Bool
  pairable : Bool
  discoverable : Bool
  aliasName : String
  cod : Nat
  boundPsms : List Nat
  openSockets : List Nat
  nextSocketId : Nat
  deriving DecidableEq, Repr

/-- `Controller` (src/lib.rs:230-237).  `session`/`adapter` live in
`World`; `protocol` is reduced to the controller type's display name, the
only part of it `pair` consumes (`ControllerType`/`Protocol` are imported
by `src/lib.rs` but absent from `src/protocol/mod.rs`; modelled from the
spec: each `ControllerType` "has a fixed display/advertised name"). -/
structure Controller where
  controllerTypeName : String
  handle : Option Profile
  ctr_seq_packet : Option SeqPacket
  itr_seq_packet : Option SeqPacket
  deriving DecidableEq, Repr

/-- The environment-chosen values one run of `pair` observes. -/
structure PairEnv where
  classRead : Nat
  ctrRemote : Nat
  itrRemote : Nat
  profileRand : Nat
  deriving DecidableEq, Repr

/-- How a run of `pair` ends: the returned address, a returned error, or a
panic (the failed `assert!`). -/
inductive PairOutcome where
  | ok (addr : Nat)
  | error (e : Error)
  | panicked
  deriving DecidableEq, Repr

/-- The `for` loop of src/lib.rs:265-272: walk the known devices in order;
a device whose name is `"Nintendo Switch"` is logged
(`warn!("Unpair previous device {}", addr)`) and removed; every other
device is kept.  Returns the remaining devices and the warnings in order. -/
def unpairLoop : List Device → List Device × List String
  | [] => ([], [])
  | d :: rest =>
    let (ds, logs) := unpairLoop rest
    if d.name = some NINTENDO_SWITCH_NAME then
      (ds, ("Unpair previous device " ++ toString d.addr) :: logs)
    else
      (d :: ds, logs)

/-- Everything a run of `pair` produces: its outcome, the final world and
controller, and the log lines emitted. -/
structure PairResult where
  outcome : PairOutcome
  world : World
  controller : Controller
  log : List String
  deriving DecidableEq, Repr

/-- `Controller::pair` (src/lib.rs:256-322), step for step:
warn when more than 3 service records are active; unpair known
`"Nintendo Switch"` devices; reset the protocol state; bind the control
and interrupt listeners (PSM 17 and 19) at the adapter address; set
powered, pairable, and the alias to the controller type's name; register
the service-record profile (retaining its handle); set discoverable; set
the class to `0x002508` and re-read it, returning an `Other` error naming
the adapter when the read-back differs; accept on the control then the
interrupt listener; `assert!` both accepted remote addresses are equal
(a mismatch panics, dropping the two just-accepted sockets); store the
sockets, clear discoverable and pairable, and return the remote address. -/
def Controller.pair (c : Controller) (w : World) (env : PairEnv) :
    PairResult :=
  let log0 : List String :=
    match w.adapterUuids with
    | some uuids =>
      if uuids.length > 3 then ["Too many service records active"] else []
    | none => []
  let unpaired := unpairLoop w.devices
  let w1 : World := { w with devices := unpaired.1 }
  let w2 : World := { w1 with boundPsms := w1.boundPsms ++ [CTR_PSM, ITR_PSM] }
  let w3 : World :=
    { w2 with powered := true, pairable := true,
              aliasName := c.controllerTypeName }
  let profile := Profile.new_service_record SERVICE_UUID SERVICE_RECORD
    env.profileRand
  let c1 : Controller := { c with handle := some profile }
  let w4 : World := { w3 with discoverable := true, cod := env.classRead }
  if env.classRead ≠ GAMEPAD_JOYSITCK_COD then
    { outcome := .error ⟨.other,
        "cannot set class for adapter " ++ w4.adapterName⟩
      world := w4, controller := c1, log := log0 ++ unpaired.2 }
  else
    let ctrId := w4.nextSocketId
    let itrId := w4.nextSocketId + 1
    let ctrAddr : SocketAddr := ⟨env.ctrRemote, CTR_PSM⟩
    let itrAddr : SocketAddr := ⟨env.itrRemote, ITR_PSM⟩
    let w5 : World :=
      { w4 with openSockets := w4.openSockets ++ [ctrId, itrId],
                nextSocketId := w4.nextSocketId + 2 }
    if ctrAddr.addr = itrAddr.addr then
      let c2 : Controller :=
        { c1 with ctr_seq_packet := some ⟨ctrId⟩,
                  itr_seq_packet := some ⟨itrId⟩ }
      let w6 : World := { w5 with discoverable := false, pairable := false }
      { outcome := .ok itrAddr.addr, world := w6, controller := c2,
        log := log0 ++ unpaired.2 }
    else
      let w6 : World :=
        { w5 with openSockets := (w5.openSockets.erase itrId).erase ctrId }
      { outcome := .panicked, world := w6, controller := c1,
        log := log0 ++ unpaired.2 }

/-! ## Teardown model (src/lib.rs:324-341) -/

/-- What one run of `close` produced: the controller afterwards, the socket
ids on which `shutdown(Shutdown::Both)` was invoked (in invocation order),
and the warnings logged for failed shutdowns. -/
structure CloseResult where
  controller : Controller
  shutdowns : List Nat
  warnings : List String
  deriving DecidableEq, Repr

/-- `Controller::close` (src/lib.rs:324-341): if the interrupt socket is
present, shut it down (a shutdown failure is logged with `warn!`, never
returned) and `take()` it; the same for the control socket; finally
`take()` the profile handle, unregistering the service record.  The oracle
`shutdownFails` says which socket shutdowns fail; the logged text of an
`io::Error` is outside the model, so a fixed marker line stands for it. -/
def Controller.close (c : Controller) (shutdownFails : Nat → Bool) :
    CloseResult :=
  let itrStep :=
    match c.itr_seq_packet with
    | some sp =>
      ({ c with itr_seq_packet := none }, [sp.id],
        if shutdownFails sp.id then ["shutdown failed"] else ([] : List String))
    | none => (c, [], [])
  let c1 := itrStep.1
  let ctrStep :=
    match c1.ctr_seq_packet with
    | some sp =>
      ({ c1 with ctr_seq_packet := none }, [sp.id],
        if shutdownFails sp.id then ["shutdown failed"] else ([] : List String))
    | none => (c1, [], [])
  { controller := { ctrStep.1 with handle := none }
    shutdowns := itrStep.2.1 ++ ctrStep.2.1
    warnings := itrStep.2.2 ++ ctrStep.2.2 }

/-! ## Concrete probe inputs for the pairing claims -/

/-- A quiescent world: one adapter `"hci0"` at address 1, no known devices,
no advertised UUIDs, all flags off, nothing bound or open. -/
def w0 : World :=
  { adapterName := "hci0"
    adapterAddr := 1
    devices := []
    adapterUuids := none
    powered := false
    pairable := false
    discoverable := false
    aliasName := ""
    cod := 0
    boundPsms := []
    openSockets := []
    nextSocketId := 0 }

/-- A freshly created controller session (src/lib.rs:245-252: all of
`handle`, `ctr_seq_packet`, `itr_seq_packet` start as `None`). -/
def c0 : Controller :=
  { controllerTypeName := "Pro Controller"
    handle := none
    ctr_seq_packet := none
    itr_seq_packet := none }

/-- An environment in which the class read-back matches but the two
accepted connections come from different remote addresses (2 and 3). -/
def mismatchEnv : PairEnv :=
  { classRead := 0x002508, ctrRemote := 2, itrRemote := 3, profileRand := 0 }

/-- An environment in which the class read-back matches and both accepts
come from remote address 2. -/
def matchEnv : PairEnv :=
  { classRead := 0x002508, ctrRemote := 2, itrRemote := 2, profileRand := 0 }

/-- An environment in which the class read-back is wrong (`0` instead of
`0x002508`). -/
def badClassEnv : PairEnv :=
  { classRead := 0, ctrRemote := 2, itrRemote := 2, profileRand := 0 }

/-- A world with three known devices, two of them stale
`"Nintendo Switch"` pairings around an unrelated device. -/
def staleWorld : World :=
  { w0 with devices :=
      [⟨10, some "Nintendo Switch"⟩, ⟨11, some "Headphones"⟩,
        ⟨12, some "Nintendo Switch"⟩] }

/-- A controller holding two open sockets (ids 5 and 6) and a registered
profile handle, as after a successful `pair`. -/
def pairedController : Controller :=
  { controllerTypeName := "Pro Controller"
    handle := some (Profile.new_service_record SERVICE_UUID SERVICE_RECORD 0)
    ctr_seq_packet := some ⟨5⟩
    itr_seq_packet := some ⟨6⟩ }

/-- A shutdown oracle under which every shutdown succeeds. -/
def noShutdownFailure : Nat → Bool := fun _ => false

/-- A service UUID that happens to coincide with the UUID
`Uuid::new_v4()` produces from the all-zero random draw: the profile built
for it gets a `uuid` equal to its `service`. -/
def collidingServiceUuid : Nat := Uuid.newV4 0

/-! ## Concrete probe frames -/

/-- A 12-byte frame whose first byte is `0xA2`: not `0xA1`, yet it passes
the decoder's direction check (its failure is a type error). -/
def directionProbe : List Nat := [0xA2, 0x00, 0, 0, 0, 0, 0, 0, 0, 0, 0, 0]

/-- A 12-byte frame led by `0xA1`, which the decoder rejects as a wrong
direction. -/
def inputLedProbe : List Nat := [0xA1, 0x01, 0, 0, 0, 0, 0, 0, 0, 0, 0, 0]

/-- A well-formed Subcommand output frame per the code's accepted layout:
direction `0xA2`, type `0x01` (Subcommand), timer `0`, zero rumble, and
subcommand id `0`. -/
def subcommandFrame : List Nat := [0xA2, 0x01, 0, 0, 0, 0, 0, 0, 0, 0, 0, 0]


/-! ## Claim theorems: report codec -/

/-- C1 (counterexample): the spec names `0xA1` as the Output direction tag,
but the decoder accepts `0xA2` and rejects `0xA1`.  The 12-byte frame
`directionProbe` has first byte `0xA2 ≠ 0xA1` and its decode does NOT fail
with a direction error (it fails with a type error), while the `0xA1`-led
frame `inputLedProbe` is the one rejected for its direction. -/
theorem c1_direction_tag_counterexample :
    12 ≤ directionProbe.length ∧
    directionProbe.getD 0 0 ≠ 0xA1 ∧
    Output.try_from directionProbe ≠
      DecodeResult.error ⟨.protocol, "invalid output direction"⟩ ∧
    Output.try_from directionProbe =
      DecodeResult.error ⟨.protocol, "invalid output type"⟩ ∧
    Output.try_from inputLedProbe =
      DecodeResult.error ⟨.protocol, "invalid output direction"⟩ := by
  refine ⟨by decide, by decide, ?_, ?_, ?_⟩ <;> decide

/-- C1 (amended): for every byte sequence of length at least 12 whose first
byte is not `0xA2`, `Output::try_from` fails with a direction error; `0xA2`
(not `0xA1`) is the Output (host-to-controller) direction tag the decoder
accepts. -/
theorem c1_direction_error (value : List Nat) (hlen : 12 ≤ value.length)
    (hdir : value.getD 0 0 ≠ 0xA2) :
    Output.try_from value = .error ⟨.protocol, "invalid output direction"⟩ := by
  have hnot : ¬ value.length < 12 := by omega
  simp only [Output.try_from, hnot, if_false, Direction.toByte]
  rw [if_pos]
  exact hdir

/-- Witness for `c1_direction_error` at the concrete frame
`[0xA1, 1, 0, …, 0]`. -/
theorem c1_direction_error_witness :
    Output.try_from inputLedProbe =
      .error ⟨.protocol, "invalid output direction"⟩ :=
  c1_direction_error inputLedProbe (by decide) (by decide)

/-- C4: every byte sequence shorter than 12 bytes fails to decode with a
length error, regardless of the bytes' values. -/
theorem c4_short_frame_length_error (value : List Nat)
    (hlen : value.length < 12) :
    Output.try_from value = .error ⟨.protocol, "invalid output length"⟩ := by
  simp only [Output.try_from, hlen, if_true]

/-- Witness for `c4_short_frame_length_error` at the empty frame. -/
theorem c4_short_frame_length_error_witness :
    Output.try_from [] = .error ⟨.protocol, "invalid output length"⟩ :=
  c4_short_frame_length_error [] (by decide)

/-- C5: a frame of length at least 12 that passes the direction check but
whose second byte is none of `0x01`, `0x10`, `0x11` fails with a type
error; conversely `0x01`, `0x10`, `0x11` are accepted by `Type::try_from`
and map to `Subcommand`, `Rumble`, `RequestIrNfcMcu` respectively. -/
theorem c5_type_error :
    (∀ value : List Nat, 12 ≤ value.length → value.getD 0 0 = 0xA2 →
      value.getD 1 0 ≠ 0x01 → value.getD 1 0 ≠ 0x10 → value.getD 1 0 ≠ 0x11 →
      Output.try_from value = .error ⟨.protocol, "invalid output type"⟩) ∧
    Ty.try_from 0x01 = .ok .subcommand ∧
    Ty.try_from 0x10 = .ok .rumble ∧
    Ty.try_from 0x11 = .ok .requestIrNfcMcu := by
  refine ⟨?_, rfl, rfl, rfl⟩
  intro value hlen hdir h1 h2 h3
  have hnot : ¬ value.length < 12 := by omega
  simp only [Output.try_from, hnot, if_false, Direction.toByte, hdir,
    ne_eq, not_true_eq_false, if_false, Ty.try_from, h1, h2, h3, if_true]

/-- Witness for `c5_type_error` at the concrete frame `[0xA2, 2, 0, …, 0]`. -/
theorem c5_type_error_witness :
    Output.try_from [0xA2, 0x02, 0, 0, 0, 0, 0, 0, 0, 0, 0, 0] =
      .error ⟨.protocol, "invalid output type"⟩ :=
  c5_type_error.1 [0xA2, 0x02, 0, 0, 0, 0, 0, 0, 0, 0, 0, 0]
    (by decide) (by decide) (by decide) (by decide) (by decide)

/-- C3 (code bug): decoding a well-formed Subcommand frame never succeeds —
the source reaches `todo!()` right after reading the timer byte, so the
rumble/subcommand/payload extraction the claim describes is unimplemented
and the decoder panics; moreover a frame led by the spec's `0xA1` tag is
rejected at the direction check. -/
theorem c3_roundtrip_unimplemented :
    Output.try_from subcommandFrame = DecodeResult.unimplemented ∧
    Output.try_from inputLedProbe =
      DecodeResult.error ⟨.protocol, "invalid output direction"⟩ := by
  constructor <;> decide

/-! ## Helper lemmas for the pairing claims -/

/-- The devices surviving the unpair loop are exactly those not named
`"Nintendo Switch"`, in their original order. -/
theorem unpairLoop_fst (ds : List Device) :
    (unpairLoop ds).1 =
      ds.filter (fun d => !(d.name == some NINTENDO_SWITCH_NAME)) := by
  induction ds with
  | nil => rfl
  | cons d rest ih =>
    by_cases h : d.name = some NINTENDO_SWITCH_NAME <;>
      simp [unpairLoop, h, ih, List.filter_cons]

/-- Every `"Nintendo Switch"` entry of the device list contributes its
removal warning to the unpair loop's log. -/
theorem unpairLoop_snd_mem (ds : List Device) (d : Device) (hd : d ∈ ds)
    (hname : d.name = some NINTENDO_SWITCH_NAME) :
    ("Unpair previous device " ++ toString d.addr) ∈ (unpairLoop ds).2 := by
  induction ds with
  | nil => cases hd
  | cons e rest ih =>
    rcases List.mem_cons.mp hd with heq | hmem
    · subst heq
      simp [unpairLoop, hname]
    · by_cases h : e.name = some NINTENDO_SWITCH_NAME <;>
        simp [unpairLoop, h, ih hmem]

/-- Erasing the two freshly appended socket ids recovers the original open
socket list when all existing ids are below the fresh ones. -/
theorem erase_fresh_pair (l : List Nat) (n : Nat) (h : ∀ i ∈ l, i < n) :
    ((l ++ [n, n + 1]).erase (n + 1)).erase n = l := by
  have hn : n ∉ l := fun hm => absurd (h n hm) (by omega)
  have hn1 : (n + 1) ∉ l := fun hm => absurd (h (n + 1) hm) (by omega)
  rw [List.erase_append_right _ (by simpa using hn1)]
  have h2 : ([n, n + 1] : List Nat).erase (n + 1) = [n] := by
    rw [List.erase_cons_tail (by simp), List.erase_cons_head]
  rw [h2, List.erase_append_right _ (by simpa using hn), List.erase_cons_head]
  simp

/-- Whichever branch `pair` takes, its final device list is the one the
unpair loop produced: the stale-pairing cleanup happens before listeners,
advertisement, class configuration, and the accepts, and nothing after it
touches the device list. -/
theorem pair_world_devices (c : Controller) (w : World) (env : PairEnv) :
    (Controller.pair c w env).world.devices = (unpairLoop w.devices).1 := by
  simp only [Controller.pair]
  split
  · rfl
  · split <;> rfl

/-- Whichever branch `pair` takes, every warning the unpair loop emitted is
in the run's log. -/
theorem pair_log_mem (c : Controller) (w : World) (env : PairEnv)
    (x : String) (hx : x ∈ (unpairLoop w.devices).2) :
    x ∈ (Controller.pair c w env).log := by
  simp only [Controller.pair]
  split
  · exact List.mem_append_right _ hx
  · split <;> exact List.mem_append_right _ hx

/-- `Uuid::new_v4` always stamps version 4: the version nibble of the
produced value is `4` for every random draw. -/
theorem uuidVersion_newV4 (r : Nat) : uuidVersion (Uuid.newV4 r) = 4 := by
  simp only [Uuid.newV4, uuidVersion]
  omega

/-! ## Claim theorems: pairing orchestrator -/

/-- C2 (counterexample): in a run in which the control and interrupt
accepts yield different remote addresses (2 and 3) and every prior step
succeeds, `pair` panics on its `assert!` — it does not return a
descriptive error. -/
theorem c2_assert_panic_counterexample :
    mismatchEnv.ctrRemote ≠ mismatchEnv.itrRemote ∧
    (Controller.pair c0 w0 mismatchEnv).outcome = PairOutcome.panicked := by
  exact ⟨by decide, rfl⟩

/-- C2 (amended): when the interrupt accept yields a remote address
different from the control accept's, `pair` fails by PANICKING on
`assert!(ctr_addr.addr == itr_addr.addr)` rather than by returning an
error; the two just-accepted sockets are dropped during unwinding (the set
of open sockets returns to what it was), and neither is stored in the
controller. -/
theorem c2_mismatch_panics (c : Controller) (w : World) (env : PairEnv)
    (hclass : env.classRead = GAMEPAD_JOYSITCK_COD)
    (hmm : env.ctrRemote ≠ env.itrRemote)
    (hfresh : ∀ i ∈ w.openSockets, i < w.nextSocketId) :
    (Controller.pair c w env).outcome = PairOutcome.panicked ∧
    (Controller.pair c w env).world.openSockets = w.openSockets ∧
    (Controller.pair c w env).controller.ctr_seq_packet = c.ctr_seq_packet ∧
    (Controller.pair c w env).controller.itr_seq_packet = c.itr_seq_packet := by
  have hcond : ¬ (env.classRead ≠ GAMEPAD_JOYSITCK_COD) := by simp [hclass]
  simp only [Controller.pair]
  rw [if_neg hcond, if_neg hmm]
  exact ⟨rfl, erase_fresh_pair w.openSockets w.nextSocketId hfresh, rfl, rfl⟩

/-- Witness for `c2_mismatch_panics` on the quiescent world with remotes
2 ≠ 3. -/
theorem c2_mismatch_panics_witness :
    (Controller.pair c0 w0 mismatchEnv).outcome = PairOutcome.panicked ∧
    (Controller.pair c0 w0 mismatchEnv).world.openSockets = w0.openSockets :=
  ⟨(c2_mismatch_panics c0 w0 mismatchEnv rfl (by decide) (by decide)).1,
    (c2_mismatch_panics c0 w0 mismatchEnv rfl (by decide) (by decide)).2.1⟩

/-- C6: for every device list, `pair` removes exactly the entries named
`"Nintendo Switch"` (the surviving devices are the unrelated ones, none of
them a Switch), and each removal is logged with its warning line — in every
branch of `pair`, so removal precedes listener binding, advertising, and
the accepts. -/
theorem c6_unpair_stale (c : Controller) (w : World) (env : PairEnv) :
    (Controller.pair c w env).world.devices =
      w.devices.filter (fun d => !(d.name == some NINTENDO_SWITCH_NAME)) ∧
    (∀ d ∈ (Controller.pair c w env).world.devices,
      d.name ≠ some NINTENDO_SWITCH_NAME) ∧
    (∀ d ∈ w.devices, d.name = some NINTENDO_SWITCH_NAME →
      ("Unpair previous device " ++ toString d.addr) ∈
        (Controller.pair c w env).log) := by
  refine ⟨?_, ?_, ?_⟩
  · rw [pair_world_devices, unpairLoop_fst]
  · intro d hd
    rw [pair_world_devices, unpairLoop_fst] at hd
    simpa using (List.mem_filter.mp hd).2
  · intro d hd hname
    exact pair_log_mem c w env _ (unpairLoop_snd_mem w.devices d hd hname)

/-- Witness for `c6_unpair_stale` on a device list with two stale Switch
pairings around an unrelated device. -/
theorem c6_unpair_stale_witness :
    (Controller.pair c0 staleWorld matchEnv).world.devices =
      [⟨11, some "Headphones"⟩] ∧
    ("Unpair previous device 10" ∈ (Controller.pair c0 staleWorld matchEnv).log) ∧
    ("Unpair previous device 12" ∈ (Controller.pair c0 staleWorld matchEnv).log) := by
  refine ⟨?_, ?_, ?_⟩
  · rw [(c6_unpair_stale c0 staleWorld matchEnv).1]; rfl
  · exact (c6_unpair_stale c0 staleWorld matchEnv).2.2
      ⟨10, some "Nintendo Switch"⟩ (by decide) rfl
  · exact (c6_unpair_stale c0 staleWorld matchEnv).2.2
      ⟨12, some "Nintendo Switch"⟩ (by decide) rfl

/-- C7: whenever the class read back after `set_class` differs from
`0x002508`, `pair` returns the `Other` error naming the adapter and does
not proceed to the accepts. -/
theorem c7_class_mismatch (c : Controller) (w : World) (env : PairEnv)
    (h : env.classRead ≠ GAMEPAD_JOYSITCK_COD) :
    (Controller.pair c w env).outcome =
      PairOutcome.error
        ⟨.other, "cannot set class for adapter " ++ w.adapterName⟩ := by
  simp only [Controller.pair]
  rw [if_pos h]

/-- Witness for `c7_class_mismatch` with read-back 0 on adapter "hci0". -/
theorem c7_class_mismatch_witness :
    (Controller.pair c0 w0 badClassEnv).outcome =
      PairOutcome.error ⟨.other, "cannot set class for adapter hci0"⟩ :=
  c7_class_mismatch c0 w0 badClassEnv (by decide)

/-- C8: every successful run of `pair` (one returning an address) leaves
the adapter's discoverable and pairable flags both false. -/
theorem c8_flags_cleared (c : Controller) (w : World) (env : PairEnv)
    (a : Nat) (h : (Controller.pair c w env).outcome = PairOutcome.ok a) :
    (Controller.pair c w env).world.discoverable = false ∧
    (Controller.pair c w env).world.pairable = false := by
  revert h
  simp only [Controller.pair]
  split
  · intro h; simp at h
  · split
    · intro _; exact ⟨rfl, rfl⟩
    · intro h; simp at h

/-- Witness for `c8_flags_cleared` on the matching-addresses environment. -/
theorem c8_flags_cleared_witness :
    (Controller.pair c0 w0 matchEnv).world.discoverable = false ∧
    (Controller.pair c0 w0 matchEnv).world.pairable = false :=
  c8_flags_cleared c0 w0 matchEnv 2 rfl

/-- C9: `close` is idempotent — a second `close` performs no socket
shutdown, logs nothing, and leaves the controller unchanged; the first
`close` empties both socket fields and the profile-handle field and shuts
down whichever sockets were open (errors from those shutdowns are logged,
never returned: `close` has no error output at all). -/
theorem c9_close_idempotent (c : Controller) (f g : Nat → Bool) :
    Controller.close (Controller.close c f).controller g =
      { controller := (Controller.close c f).controller,
        shutdowns := [], warnings := [] } ∧
    (Controller.close c f).controller.itr_seq_packet = none ∧
    (Controller.close c f).controller.ctr_seq_packet = none ∧
    (Controller.close c f).controller.handle = none ∧
    (∀ sp, c.itr_seq_packet = some sp →
      sp.id ∈ (Controller.close c f).shutdowns) ∧
    (∀ sp, c.ctr_seq_packet = some sp →
      sp.id ∈ (Controller.close c f).shutdowns) := by
  cases hi : c.itr_seq_packet <;> cases hc : c.ctr_seq_packet <;>
    simp [Controller.close, hi, hc]

/-- Witness for `c9_close_idempotent` on a controller with two open
sockets: the second close is a no-op and the first shut down socket 6. -/
theorem c9_close_idempotent_witness :
    Controller.close
        (Controller.close pairedController noShutdownFailure).controller
        noShutdownFailure =
      { controller :=
          (Controller.close pairedController noShutdownFailure).controller,
        shutdowns := [], warnings := [] } ∧
    (6 : Nat) ∈ (Controller.close pairedController noShutdownFailure).shutdowns :=
  ⟨(c9_close_idempotent pairedController noShutdownFailure noShutdownFailure).1,
    (c9_close_idempotent pairedController noShutdownFailure
      noShutdownFailure).2.2.2.2.1 ⟨6⟩ rfl⟩

/-- C10 (counterexample): the profile UUID is whatever `Uuid::new_v4()`
draws, and nothing in the construction compares it with the service UUID:
for a service UUID that coincides with the v4 value of the all-zero draw,
the built profile's own `uuid` EQUALS its `service` — it is not
guaranteed distinct. -/
theorem c10_uuid_collision_counterexample :
    (Profile.new_service_record collidingServiceUuid "record" 0).uuid =
      collidingServiceUuid ∧
    (Profile.new_service_record collidingServiceUuid "record" 0).service =
      some collidingServiceUuid := ⟨rfl, rfl⟩

/-- C10 (amended): `new_service_record(u, r)` builds a profile with role
`Server`, authentication and authorization required, `service = Some u`,
`service_record = Some r`, and as its own UUID exactly the version-4 value
stamped from the fresh random draw; that UUID differs from `u` whenever
the draw's v4 value differs from `u` (randomness makes this overwhelmingly
likely but the code does not guarantee it), and two calls yield different
profile UUIDs whenever their draws' v4 values differ. -/
theorem c10_new_service_record (u : Nat) (r : String) (g : Nat) :
    (Profile.new_service_record u r g).role = some Role.server ∧
    (Profile.new_service_record u r g).requireAuthentication = some true ∧
    (Profile.new_service_record u r g).requireAuthorization = some true ∧
    (Profile.new_service_record u r g).service = some u ∧
    (Profile.new_service_record u r g).serviceRecord = some r ∧
    (Profile.new_service_record u r g).uuid = Uuid.newV4 g ∧
    uuidVersion (Profile.new_service_record u r g).uuid = 4 ∧
    (Uuid.newV4 g ≠ u → (Profile.new_service_record u r g).uuid ≠ u) ∧
    (∀ g2, Uuid.newV4 g ≠ Uuid.newV4 g2 →
      (Profile.new_service_record u r g).uuid ≠
        (Profile.new_service_record u r g2).uuid) := by
  refine ⟨rfl, rfl, rfl, rfl, rfl, rfl, uuidVersion_newV4 g, ?_, ?_⟩
  · intro h; exact h
  · intro g2 h; exact h

/-- Witness for `c10_new_service_record` at service UUID 0 and draws 0
and 1: the two produced profile UUIDs differ from the service UUID and
from each other. -/
theorem c10_new_service_record_witness :
    (Profile.new_service_record 0 "" 0).uuid ≠ 0 ∧
    (Profile.new_service_record 0 "" 0).uuid ≠
      (Profile.new_service_record 0 "" 1).uuid :=
  ⟨(c10_new_service_record 0 "" 0).2.2.2.2.2.2.2.1 (by decide),
    (c10_new_service_record 0 "" 0).2.2.2.2.2.2.2.2 1 (by decide)⟩

end Playwith
